import Mathlib

/-!
Verification of the reproduction pipeline and audit tool.

The definitions below are shallow embeddings of the Python sources:
`repro.py` (manifest lookup, source resolution with an SCP-to-HTTPS
fallback, Dockerfile synthesis, docker invocation) and `repro-check.py`
(the Check framework and the relaxed-dialect devcontainer parsing).
External collaborators (git, docker, the filesystem, the measurement
collector) are modelled as explicit environment records, so that the
control flow of the Python code itself is what the theorems talk about.
-/

/-! ## Manifest values (the YAML data `repro.py` traverses) -/

/-- A structured manifest value: a nested mapping (Python dict, modelled as
an association list with first-match lookup), a string, or a list. -/
inductive Value where
  | vmap : List (String × Value) → Value
  | vstr : String → Value
  | vlist : List Value → Value

/-- First-match association-list lookup, the model of `key in d` / `d[key]`
on a Python dict. -/
def lookupA : List (String × Value) → String → Option Value
  | [], _ => none
  | kv :: rest, key => if kv.1 = key then some kv.2 else lookupA rest key

/-- `isinstance(out, Mapping)` from `__get_nested`. -/
def isMapping : Value → Bool
  | .vmap _ => true
  | _ => false

/-- The two error categories `__get_nested` raises: `LookupError` for a
non-mapping intermediate value and `KeyError` for an absent key.  Each
carries the sub-path its message names. -/
inductive LookupErr where
  | notAMapping : List String → LookupErr
  | missingKey : List String → LookupErr
deriving DecidableEq

/-- `'>'.join(map(str, keys))` from the error messages of `__get_nested`. -/
def joinPath (p : List String) : String := String.intercalate ">" p

/-- The exact message text each error of `__get_nested` is raised with. -/
def errMessage : LookupErr → String
  | .notAMapping p => "The value at " ++ joinPath p ++ " is not a mapping"
  | .missingKey p => "The key " ++ joinPath p ++ " could not be found"

/-- The loop of `__get_nested` (repro.py:88-96): `consumed` is `keys[:i]`,
the keys already walked, and `out` the current value.  The non-mapping check
comes before the membership check, exactly as in the source. -/
def getNestedGo : List String → List String → Value → Except LookupErr Value
  | _, [], out => .ok out
  | consumed, key :: rest, out =>
    match out with
    | .vmap m =>
      match lookupA m key with
      | some v => getNestedGo (consumed ++ [key]) rest v
      | none => .error (.missingKey (consumed ++ [key]))
    | _ => .error (.notAMapping consumed)

/-- `__get_nested(d, keys)` (repro.py:72-97). -/
def getNested (d : Value) (keys : List String) : Except LookupErr Value :=
  getNestedGo [] keys d

/-- The value stored at a key path: the straightforward recursive reading of
"the stored value", used as the independent reference that `getNested` is
checked against. -/
def stored : Value → List String → Option Value
  | v, [] => some v
  | .vmap m, key :: rest =>
    match lookupA m key with
    | some v => stored v rest
    | none => none
  | _, _ :: _ => none

theorem getNestedGo_ok : ∀ (rest consumed : List String) (out v : Value),
    stored out rest = some v → getNestedGo consumed rest out = Except.ok v := by
  intro rest
  induction rest with
  | nil =>
    intro consumed out v h
    simp only [stored, Option.some.injEq] at h
    subst h
    rfl
  | cons key rest ih =>
    intro consumed out v h
    cases out with
    | vmap m =>
      cases hk : lookupA m key with
      | none => simp [stored, hk] at h
      | some w =>
        simp only [stored, hk] at h
        simpa only [getNestedGo, hk] using ih (consumed ++ [key]) w v h
    | vstr s => simp [stored] at h
    | vlist l => simp [stored] at h

theorem getNestedGo_notAMapping :
    ∀ (rest consumed : List String) (out : Value) (p : List String),
    getNestedGo consumed rest out = Except.error (LookupErr.notAMapping p) →
    ∃ pre suf, rest = pre ++ suf ∧ suf ≠ [] ∧ p = consumed ++ pre ∧
      ∃ w, stored out pre = some w ∧ isMapping w = false := by
  intro rest
  induction rest with
  | nil => intro consumed out p h; simp [getNestedGo] at h
  | cons key rest ih =>
    intro consumed out p h
    cases out with
    | vmap m =>
      cases hk : lookupA m key with
      | none => simp [getNestedGo, hk] at h
      | some w =>
        simp only [getNestedGo, hk] at h
        obtain ⟨pre, suf, hr, hs, hp, w2, hw, hm⟩ := ih (consumed ++ [key]) w p h
        refine ⟨key :: pre, suf, by simp [hr], hs, ?_, w2, ?_, hm⟩
        · simp [hp, List.append_assoc]
        · simpa [stored, hk] using hw
    | vstr s =>
      simp only [getNestedGo, Except.error.injEq, LookupErr.notAMapping.injEq] at h
      exact ⟨[], key :: rest, rfl, by simp, by simp [h], Value.vstr s, rfl, rfl⟩
    | vlist l =>
      simp only [getNestedGo, Except.error.injEq, LookupErr.notAMapping.injEq] at h
      exact ⟨[], key :: rest, rfl, by simp, by simp [h], Value.vlist l, rfl, rfl⟩

theorem getNestedGo_missingKey :
    ∀ (rest consumed : List String) (out : Value) (p : List String),
    getNestedGo consumed rest out = Except.error (LookupErr.missingKey p) →
    ∃ pre k suf, rest = pre ++ k :: suf ∧ p = consumed ++ pre ++ [k] ∧
      ∃ m, stored out pre = some (Value.vmap m) ∧ lookupA m k = none := by
  intro rest
  induction rest with
  | nil => intro consumed out p h; simp [getNestedGo] at h
  | cons key rest ih =>
    intro consumed out p h
    cases out with
    | vmap m =>
      cases hk : lookupA m key with
      | none =>
        simp only [getNestedGo, hk, Except.error.injEq, LookupErr.missingKey.injEq] at h
        exact ⟨[], key, rest, rfl, by simp [h], m, rfl, hk⟩
      | some w =>
        simp only [getNestedGo, hk] at h
        obtain ⟨pre, k, suf, hr, hp, m2, hw, hm⟩ := ih (consumed ++ [key]) w p h
        refine ⟨key :: pre, k, suf, by simp [hr], ?_, m2, ?_, hm⟩
        · simp [hp, List.append_assoc]
        · simpa [stored, hk] using hw
    | vstr s => simp [getNestedGo] at h
    | vlist l => simp [getNestedGo] at h

/-- C1: for every mapping and key path, when the path is valid `getNested`
returns exactly the stored value; a `notAMapping` error names exactly the
consumed-so-far sub-path (a proper prefix of the keys leading to a stored
non-mapping value); a `missingKey` error names the full attempted sub-path
(the consumed keys plus the key that is absent from the mapping reached);
and the message text of each error names that sub-path.  `getNested` is a
pure Lean function, so it has no side effects. -/
theorem c1_lookup_returns_stored (d : Value) (keys : List String) :
    (∀ v, stored d keys = some v → getNested d keys = Except.ok v) ∧
    (∀ p, getNested d keys = Except.error (LookupErr.notAMapping p) →
      (∃ suf, keys = p ++ suf ∧ suf ≠ []) ∧
      (∃ w, stored d p = some w ∧ isMapping w = false) ∧
      errMessage (LookupErr.notAMapping p) =
        "The value at " ++ joinPath p ++ " is not a mapping") ∧
    (∀ p, getNested d keys = Except.error (LookupErr.missingKey p) →
      (∃ pre k suf, keys = pre ++ k :: suf ∧ p = pre ++ [k] ∧
        ∃ m, stored d pre = some (Value.vmap m) ∧ lookupA m k = none) ∧
      errMessage (LookupErr.missingKey p) =
        "The key " ++ joinPath p ++ " could not be found") := by
  refine ⟨fun v h => getNestedGo_ok keys [] d v h, fun p h => ?_, fun p h => ?_⟩
  · obtain ⟨pre, suf, hr, hs, hp, w, hw, hm⟩ :=
      getNestedGo_notAMapping keys [] d p h
    simp only [List.nil_append] at hp
    subst hp
    exact ⟨⟨suf, hr, hs⟩, ⟨w, hw, hm⟩, rfl⟩
  · obtain ⟨pre, k, suf, hr, hp, m, hw, hm⟩ :=
      getNestedGo_missingKey keys [] d p h
    simp only [List.nil_append] at hp
    exact ⟨⟨pre, k, suf, hr, hp, m, hw, hm⟩, rfl⟩

/-- Witness for C1 at a concrete nested mapping: the valid path
`implementation > source` returns the stored value. -/
theorem c1_lookup_returns_stored_witness :
    getNested (Value.vmap [("implementation",
        Value.vmap [("source", Value.vstr "repo")])])
      ["implementation", "source"] = Except.ok (Value.vstr "repo") :=
  (c1_lookup_returns_stored
      (Value.vmap [("implementation", Value.vmap [("source", Value.vstr "repo")])])
      ["implementation", "source"]).1 (Value.vstr "repo") rfl

/-! ## Source resolution (`__download_code`, repro.py:112-149) -/

/-- A character of the regex class `[A-Za-z0-9.-]` (the host part of the
SCP-like pattern). -/
def isHostChar (c : Char) : Bool := c.isAlpha || c.isDigit || c == '.' || c == '-'

/-- `re.match(r"([^@]*)@([A-Za-z0-9.-]+):(.*)", repository)` (repro.py:129),
returning the host and path groups when the locator matches.  The first
group takes everything before the first `@` (the class `[^@]*` cannot cross
one and cannot backtrack usefully); the host group is the maximal nonempty
run of `[A-Za-z0-9.-]` after it, which must be followed by `:`; the path
group is the rest of the line (`.` does not match a newline). -/
def scpMatch (s : String) : Option (String × String) :=
  let cs := s.toList
  match cs.dropWhile (fun c => c != '@') with
  | '@' :: afterAt =>
    let host := afterAt.takeWhile isHostChar
    if host.isEmpty then none
    else
      match afterAt.dropWhile isHostChar with
      | ':' :: afterColon =>
        some (String.mk host, String.mk (afterColon.takeWhile (fun c => c != '\n')))
      | _ => none
  | _ => none

/-- The candidate URL list of `__download_code` (repro.py:128-134): the
literal locator first, then, when the SCP pattern matches, the derived
`https://host/path` appended. -/
def candidates (repository : String) : List String :=
  match scpMatch repository with
  | some (host, path) => [repository, "https://" ++ host ++ "/" ++ path]
  | none => [repository]

/-- The external git operations, as an environment: `clone u fs` is
`Repo.clone_from(u, to_path=dest)` run against a destination-directory state
`fs`, giving a success flag and the state it leaves behind; `checkout u fs`
is `repo.git.checkout(commit)` on the repository cloned from `u`.  A false
flag is a raised `exc.GitError`. -/
structure GitEnv (σ : Type) where
  clone : String → σ → Bool × σ
  checkout : String → σ → Bool × σ

/-- One candidate attempt of the loop (repro.py:137-144): a clone, then, only
on clone success, a checkout; the flag says whether both succeeded, and the
state is whatever the external operations left under the destination. -/
def attempt {σ : Type} (env : GitEnv σ) (u : String) (fs : σ) : Bool × σ :=
  let c := env.clone u fs
  if c.1 then env.checkout u c.2 else (false, c.2)

/-- The `for url in candidates ... else` loop (repro.py:136-148): returns the
urls attempted in order, the final destination state, and the url that
succeeded (none = the `for`-`else` branch, `sys.exit(3)`).  On a failed
attempt the loop simply continues: the next attempt starts from the state the
failed attempt left behind, because the source performs no cleanup. -/
def resolveGo {σ : Type} (env : GitEnv σ) :
    List String → σ → List String × σ × Option String
  | [], fs => ([], fs, none)
  | u :: rest, fs =>
    let a := attempt env u fs
    if a.1 then ([u], a.2, some u)
    else
      let r := resolveGo env rest a.2
      (u :: r.1, r.2)

/-- Modelled from the spec: the resolver loop as §4.2 words it, "on any
failure (clone or checkout), discard partial filesystem state under destDir
and continue to the next candidate" — the recursive call receives the state
from before the failed attempt.  Stated only to be compared with
`resolveGo`, the loop the source actually runs. -/
def resolveGoSpecDiscard {σ : Type} (env : GitEnv σ) :
    List String → σ → List String × σ × Option String
  | [], fs => ([], fs, none)
  | u :: rest, fs =>
    let a := attempt env u fs
    if a.1 then ([u], a.2, some u)
    else
      let r := resolveGoSpecDiscard env rest fs
      (u :: r.1, r.2)

/-- The exit codes of repro.py, one per `sys.exit` call. -/
def exitManifestSyntax : Nat := 1
/-- `sys.exit(2)` of `__download_code` (missing source metadata). -/
def exitMissingSourceMetadata : Nat := 2
/-- `sys.exit(3)` of `__download_code` (all clone candidates exhausted). -/
def exitSourceUnavailable : Nat := 3
/-- `sys.exit(4)` of `__configure_docker_container` (missing executable). -/
def exitMissingExecutable : Nat := 4
/-- The interpreter's exit code for an uncaught exception (assertion or
`subprocess.CalledProcessError`). -/
def exitUncaught : Nat := 1

/-- C2: the candidate list starts with the literal locator and always has at
least one element; the derived HTTPS candidate is appended exactly when the
SCP-like pattern matches (appended after the original, never replacing it);
for `git@example.org:group/project.git` the derived candidate equals
`https://example.org/group/project.git`; and when the first candidate's
attempt succeeds, the resolver attempts only the first candidate, so the
derived one is tried only if the literal locator fails. -/
theorem c2_candidate_list :
    (∀ r, (candidates r).head? = some r) ∧
    (∀ r, 1 ≤ (candidates r).length) ∧
    (∀ r host path, scpMatch r = some (host, path) →
      candidates r = [r, "https://" ++ host ++ "/" ++ path]) ∧
    (∀ r, scpMatch r = none → candidates r = [r]) ∧
    scpMatch "git@example.org:group/project.git" =
      some ("example.org", "group/project.git") ∧
    candidates "git@example.org:group/project.git" =
      ["git@example.org:group/project.git", "https://example.org/group/project.git"] ∧
    (∀ (σ : Type) (env : GitEnv σ) (fs : σ) (r : String),
      (attempt env r fs).1 = true →
      (resolveGo env (candidates r) fs).1 = [r]) := by
  refine ⟨fun r => ?_, fun r => ?_, fun r host path h => ?_, fun r h => ?_,
    by decide, by decide, fun σ env fs r h => ?_⟩
  · cases hm : scpMatch r <;> simp [candidates, hm]
  · cases hm : scpMatch r <;> simp [candidates, hm]
  · simp [candidates, h]
  · simp [candidates, h]
  · cases hm : scpMatch r <;> simp [candidates, hm, resolveGo, h]

/-- Witness for C2 at the spec's concrete locator: the SCP pattern matches
and the two-element candidate list is produced, original first. -/
theorem c2_candidate_list_witness :
    candidates "git@example.org:group/project.git" =
      ["git@example.org:group/project.git",
       "https://example.org/group/project.git"] :=
  c2_candidate_list.2.2.1 "git@example.org:group/project.git"
    "example.org" "group/project.git" (by decide)

/-- C3: the resolver stops at the first candidate whose clone and checkout
both succeed (attempting exactly that one when it is first); given two
candidates whose attempts both fail it attempts both, in order, and ends in
the exhausted branch (`sys.exit(3)`, `SourceUnavailableError`); and that
exit code differs from every other failure category's code. -/
theorem c3_resolver_in_order (σ : Type) (env : GitEnv σ) :
    (∀ (u : String) (rest : List String) (fs : σ),
      (attempt env u fs).1 = true →
      resolveGo env (u :: rest) fs = ([u], (attempt env u fs).2, some u)) ∧
    (∀ (u1 u2 : String) (fs : σ),
      (attempt env u1 fs).1 = false →
      (attempt env u2 (attempt env u1 fs).2).1 = false →
      (resolveGo env [u1, u2] fs).1 = [u1, u2] ∧
      (resolveGo env [u1, u2] fs).2.2 = none) ∧
    (exitSourceUnavailable ≠ exitManifestSyntax ∧
     exitSourceUnavailable ≠ exitMissingSourceMetadata ∧
     exitSourceUnavailable ≠ exitMissingExecutable ∧
     exitSourceUnavailable ≠ exitUncaught ∧
     exitSourceUnavailable ≠ 0) := by
  refine ⟨fun u rest fs h => ?_, fun u1 u2 fs h1 h2 => ?_, by decide⟩
  · simp [resolveGo, h]
  · simp [resolveGo, h1, h2]

/-- A git environment over a state counting completed clones: every clone
succeeds and bumps the counter, every checkout fails.  Used to exhibit the
destination-directory state a failed attempt leaves behind. -/
def cloneCountEnv : GitEnv Nat :=
  { clone := fun _ n => (true, n + 1), checkout := fun _ n => (false, n) }

/-- A git environment in which every clone fails (after touching the state)
and checkout never runs. -/
def cloneFailEnv : GitEnv Nat :=
  { clone := fun _ n => (false, n + 1), checkout := fun _ n => (true, n) }

/-- Witness for C3 in a concrete environment where both candidates' clones
fail: both are attempted and the resolver ends exhausted. -/
theorem c3_resolver_in_order_witness :
    (resolveGo cloneFailEnv ["git@h:p", "https://h/p"] 0).1 =
      ["git@h:p", "https://h/p"] ∧
    (resolveGo cloneFailEnv ["git@h:p", "https://h/p"] 0).2.2 = none :=
  (c3_resolver_in_order Nat cloneFailEnv).2.1 "git@h:p" "https://h/p" 0
    (by decide) (by decide)

/-- C4 counterexample: the claim states that after a failed attempt the
destination directory is restored to its pre-attempt state before the next
candidate is tried.  `resolveGoSpecDiscard` is that claimed behaviour; in
the environment `cloneCountEnv` (clone succeeds and leaves a repository
behind, checkout fails) the code's loop differs from it at the concrete
input `["a", "b"]`, state `0`: the code threads the dirtied state through
(final state 2), the claimed loop restores it (final state 0). -/
theorem c4_discard_counterexample :
    resolveGo cloneCountEnv ["a", "b"] 0 ≠
      resolveGoSpecDiscard cloneCountEnv ["a", "b"] 0 := by decide

/-- C4 amended: the loop performs no cleanup between candidates.  After a
failed attempt (clone failure or checkout failure) the next candidate's
attempt starts from exactly the state the failed clone/checkout operations
left under the destination directory, not from the pre-attempt state. -/
theorem c4_no_discard_between_attempts (σ : Type) (env : GitEnv σ)
    (u : String) (rest : List String) (fs : σ)
    (h : (attempt env u fs).1 = false) :
    resolveGo env (u :: rest) fs =
      (u :: (resolveGo env rest (attempt env u fs).2).1,
       (resolveGo env rest (attempt env u fs).2).2) := by
  simp [resolveGo, h]

/-- Witness for the amended C4: in `cloneCountEnv` the first attempt fails
by checkout after a successful clone, and the second attempt starts from the
dirtied state 1 (one clone left behind), not from the initial state 0. -/
theorem c4_no_discard_between_attempts_witness :
    resolveGo cloneCountEnv ["a", "b"] 0 =
      ("a" :: (resolveGo cloneCountEnv ["b"] (attempt cloneCountEnv "a" 0).2).1,
       (resolveGo cloneCountEnv ["b"] (attempt cloneCountEnv "a" 0).2).2) :=
  c4_no_discard_between_attempts Nat cloneCountEnv "a" ["b"] 0 (by decide)

/-! ## Environment builder (`__configure_docker_container`, repro.py:152-187) -/

/-- One character under `json.dumps` string escaping (the escapes relevant
to command strings; `ensure_ascii` escaping of non-ASCII is outside the
model's inputs). -/
def jsonEscapeChar (c : Char) : String :=
  if c = '"' then "\\\""
  else if c = '\\' then "\\\\"
  else if c = '\n' then "\\n"
  else if c = '\t' then "\\t"
  else if c = '\r' then "\\r"
  else String.singleton c

/-- `json.dumps` escaping of a string body. -/
def jsonEscape (s : String) : String := String.join (s.toList.map jsonEscapeChar)

mutual
/-- `json.dumps(v)` with the default separators `", "` and `": "`: a list
renders as a JSON array — the exec form the Dockerfile `CMD` line needs. -/
def jsonDumps : Value → String
  | .vstr s => "\"" ++ jsonEscape s ++ "\""
  | .vlist xs => "[" ++ jsonDumpsItems xs ++ "]"
  | .vmap kvs => "\x7b" ++ jsonDumpsPairs kvs ++ "\x7d"

def jsonDumpsItems : List Value → String
  | [] => ""
  | [x] => jsonDumps x
  | x :: y :: rest => jsonDumps x ++ ", " ++ jsonDumpsItems (y :: rest)

def jsonDumpsPairs : List (String × Value) → String
  | [] => ""
  | [kv] => "\"" ++ jsonEscape kv.1 ++ "\": " ++ jsonDumps kv.2
  | kv :: kv2 :: rest =>
    "\"" ++ jsonEscape kv.1 ++ "\": " ++ jsonDumps kv.2 ++ ", " ++
      jsonDumpsPairs (kv2 :: rest)
end

/-- The pinned base image name (repro.py:160). -/
def baseImage : String := "mcr.microsoft.com/devcontainers/python:2-3.14-trixie"

/-- The fixed `basefile` block (repro.py:161-169). -/
def basefile : String :=
  "FROM --platform=linux/amd64 mcr.microsoft.com/devcontainers/python:2-3.14-trixie\n"
  ++ "\n# Need for docker-in-docker\nRUN <<EOF\n"
  ++ "# The one inside the image seems to be deprecated\n"
  ++ "curl -fsSL https://dl.yarnpkg.com/debian/pubkey.gpg | gpg --dearmor | sudo tee "
  ++ "/usr/share/keyrings/yarn-archive-keyring.gpg > /dev/null\nEOF\n\n"
  ++ "RUN apt-get update && apt-get install -y openjdk-21-jdk"

/-- The fixed post-create command (repro.py:171). -/
def postCreateDefault : String := "pip3 install --user -r requirements.txt"

/-- `DOCKERFILE_TEMPLATE.format_map(...)` (repro.py:23-32, 174-179): the
template with its three placeholders substituted.  `basefile or
f"FROM {image}"` is Python truthiness on the constant string. -/
def dockerfileText (command : String) : String :=
  "\n" ++ (if basefile = "" then "FROM " ++ baseImage else basefile) ++
  "\n\nWORKDIR /app\n\nCOPY . .\nRUN " ++ postCreateDefault ++
  "\n\nCMD " ++ command ++ "\n"

/-- The key path `("implementation", "executable", "cmd")`. -/
def cmdKeys : List String := ["implementation", "executable", "cmd"]

/-- `__configure_docker_container` (repro.py:152-187), restricted to the
descriptor bytes it writes: the `cmd` lookup, then the template filled with
the fixed base layer, the fixed post-create command and `json.dumps(cmd)`.
A `LookupError` is the `sys.exit(4)` branch.  The source reads no clock,
randomness or other ambient state, so the output is a function of the
manifest alone. -/
def configureDockerfile (m : Value) : Except LookupErr String :=
  match getNested m cmdKeys with
  | .ok cmd => .ok (dockerfileText (jsonDumps cmd))
  | .error e => .error e

/-- C6: the environment builder is deterministic — identical manifest input
yields byte-identical descriptor output, the output being exactly the fixed
template around `json.dumps` of the recorded command; and the recorded
command, a list, is rendered as a bracketed exec-form argument list, each
string element quoted. -/
theorem c6_build_deterministic :
    (∀ m1 m2 : Value, m1 = m2 → configureDockerfile m1 = configureDockerfile m2) ∧
    (∀ (m : Value) (c : Value), getNested m cmdKeys = Except.ok c →
      configureDockerfile m = Except.ok (dockerfileText (jsonDumps c))) ∧
    (∀ xs : List Value, jsonDumps (Value.vlist xs) = "[" ++ jsonDumpsItems xs ++ "]") ∧
    (∀ s : String, jsonDumps (Value.vstr s) = "\"" ++ jsonEscape s ++ "\"") := by
  refine ⟨fun m1 m2 h => by rw [h], fun m c h => ?_, fun xs => rfl, fun s => rfl⟩
  simp [configureDockerfile, h]

/-- A concrete manifest carrying a recorded command. -/
def manifestWithCmd : Value :=
  Value.vmap [("implementation", Value.vmap [("executable", Value.vmap
    [("cmd", Value.vlist [Value.vstr "python3", Value.vstr "main.py"])])])]

/-- Witness for C6: on a concrete manifest the builder emits exactly the
template around the exec-form command list. -/
theorem c6_build_deterministic_witness :
    configureDockerfile manifestWithCmd = Except.ok (dockerfileText
      (jsonDumps (Value.vlist [Value.vstr "python3", Value.vstr "main.py"]))) :=
  c6_build_deterministic.2.1 manifestWithCmd
    (Value.vlist [Value.vstr "python3", Value.vstr "main.py"]) rfl

/-! ## Execution runner (`__run_experiment`, repro.py:190-210) -/

/-- The exception a Python name that is bound nowhere raises. -/
inductive RunError where
  | nameError : String → RunError
deriving DecidableEq

/-- The value of the local `network_access` variable (repro.py:204): the
source hardcodes it to `True`; no caller can pass `False`. -/
def networkAccessValue : Bool := true

/-- The argument list `["docker", *docker_args, "repro-experiment"]` the run
step executes (repro.py:207-210), as a function of `network_access`.  The
branch for `network_access == False` executes `docker_cmd.extend(("--network",
"none"))`, but `docker_cmd` is bound nowhere in the module, so that branch
raises `NameError` before any flag reaches `docker_args` and before
`subprocess.run` is called. -/
def dockerRunArgs (networkAccess : Bool) : Except RunError (List String) :=
  let dockerArgs := ["--rm"]
  if networkAccess then .ok ("docker" :: dockerArgs ++ ["repro-experiment"])
  else .error (.nameError "docker_cmd")

/-- C7 (code bug): with `networkAccess = false` the run step's argument list
is never built — the isolation branch raises `NameError` on the unbound name
`docker_cmd` — so no invocation ever includes the `--network none` flag; the
only value the source can take is `networkAccess = true`, whose argument
list carries no isolation flag. -/
theorem c7_network_flag_never_applied :
    dockerRunArgs false = Except.error (RunError.nameError "docker_cmd") ∧
    networkAccessValue = true ∧
    dockerRunArgs true = Except.ok ["docker", "--rm", "repro-experiment"] := by
  refine ⟨rfl, rfl, rfl⟩

/-! ## The pipeline (`reproduce_command`, repro.py:214-224) -/

/-- The key path `("implementation", "source", "repository")`. -/
def repoKeys : List String := ["implementation", "source", "repository"]

/-- The key path `("implementation", "source", "commit")`. -/
def commitKeys : List String := ["implementation", "source", "commit"]

/-- The externally observable pipeline events: each clone candidate
attempted, and the two docker invocations of the execution runner. -/
inductive Ev where
  | cloneAttempt : String → Ev
  | dockerBuild : Ev
  | dockerRun : Ev
deriving DecidableEq

/-- The docker collaborator: whether `docker build` and `docker run` exit
with status zero. -/
structure ExecEnv where
  buildOk : Bool
  runOk : Bool

/-- `isinstance(cmd, list) and all(isinstance(e, str) for e in cmd)`
(repro.py:194). -/
def isStrList : Value → Bool
  | .vlist xs => xs.all fun v => match v with | .vstr _ => true | _ => false
  | _ => false

/-- `reproduce_command` (repro.py:214-224) after the manifest has parsed:
the ordered external events and the process exit code (0 = success).
Stage order follows the source: `__download_code` (repository and commit
lookups, `sys.exit(2)` on `LookupError`, uncaught assertion if either is not
a string, then the candidate loop, `sys.exit(3)` when exhausted), then
`__configure_docker_container` (`cmd` lookup, `sys.exit(4)` on
`LookupError`), then `__run_experiment` (`cmd` shape assertion, `docker
build`, `docker run`; a nonzero status raises `CalledProcessError`, an
uncaught exception, exit code 1). -/
def reproduceCommand {σ : Type} (m : Value) (genv : GitEnv σ) (fs : σ)
    (eenv : ExecEnv) : List Ev × Nat :=
  match getNested m repoKeys with
  | .error _ => ([], exitMissingSourceMetadata)
  | .ok repoV =>
    match getNested m commitKeys with
    | .error _ => ([], exitMissingSourceMetadata)
    | .ok commitV =>
      match repoV, commitV with
      | .vstr repo, .vstr _commit =>
        let r := resolveGo genv (candidates repo) fs
        let evs := r.1.map Ev.cloneAttempt
        match r.2.2 with
        | none => (evs, exitSourceUnavailable)
        | some _ =>
          match getNested m cmdKeys with
          | .error _ => (evs, exitMissingExecutable)
          | .ok cmd =>
            if isStrList cmd then
              if eenv.buildOk then
                (evs ++ [Ev.dockerBuild, Ev.dockerRun],
                  if eenv.runOk then 0 else exitUncaught)
              else (evs ++ [Ev.dockerBuild], exitUncaught)
            else (evs, exitUncaught)
      | _, _ => ([], exitUncaught)

/-- C5: when the manifest's source fields are present (so the pipeline gets
past source resolution) and the fetch succeeds, a manifest in which the path
`implementation.executable.cmd` is absent makes the pipeline terminate with
the missing-executable exit code (4), distinct from the source-resolution
code (3), and neither docker invocation — image build or container run — is
ever emitted. -/
theorem c5_missing_cmd_no_runner (σ : Type) (m : Value) (genv : GitEnv σ)
    (fs : σ) (eenv : ExecEnv) (repo commit : String) (e : LookupErr)
    (hrepo : getNested m repoKeys = Except.ok (Value.vstr repo))
    (hcommit : getNested m commitKeys = Except.ok (Value.vstr commit))
    (hfetch : (resolveGo genv (candidates repo) fs).2.2.isSome = true)
    (hcmd : getNested m cmdKeys = Except.error e) :
    (reproduceCommand m genv fs eenv).2 = exitMissingExecutable ∧
    exitMissingExecutable ≠ exitSourceUnavailable ∧
    Ev.dockerBuild ∉ (reproduceCommand m genv fs eenv).1 ∧
    Ev.dockerRun ∉ (reproduceCommand m genv fs eenv).1 := by
  obtain ⟨u, hu⟩ := Option.isSome_iff_exists.mp hfetch
  simp only [reproduceCommand, hrepo, hcommit, hu, hcmd]
  simp [exitMissingExecutable, exitSourceUnavailable, List.mem_map]

/-- A manifest whose source block is complete but whose `executable` block
lacks `cmd`. -/
def manifestNoCmd : Value :=
  Value.vmap [("implementation", Value.vmap
    [("source", Value.vmap
      [("repository", Value.vstr "git@example.org:group/project.git"),
       ("commit", Value.vstr "0123abc")]),
     ("executable", Value.vmap [])])]

/-- A git environment (over a unit-like state) in which every clone and
checkout succeeds. -/
def cloneOkEnv : GitEnv Nat :=
  { clone := fun _ n => (true, n), checkout := fun _ n => (true, n) }

/-- Witness for C5: on `manifestNoCmd`, with git succeeding, the pipeline
exits with code 4 and no docker event occurs. -/
theorem c5_missing_cmd_no_runner_witness :
    (reproduceCommand manifestNoCmd cloneOkEnv 0 ⟨true, true⟩).2 =
      exitMissingExecutable ∧
    exitMissingExecutable ≠ exitSourceUnavailable ∧
    Ev.dockerBuild ∉ (reproduceCommand manifestNoCmd cloneOkEnv 0 ⟨true, true⟩).1 ∧
    Ev.dockerRun ∉ (reproduceCommand manifestNoCmd cloneOkEnv 0 ⟨true, true⟩).1 :=
  c5_missing_cmd_no_runner Nat manifestNoCmd cloneOkEnv 0 ⟨true, true⟩
    "git@example.org:group/project.git" "0123abc"
    (LookupErr.missingKey ["implementation", "executable", "cmd"])
    rfl rfl rfl rfl

/-! ## Strict JSON parsing and the relaxed dialect (repro-check.py:149-157) -/

/-- The opening brace character (written by code point to keep string and
character literals brace-free). -/
def obrace : Char := Char.ofNat 123

/-- The closing brace character. -/
def cbrace : Char := Char.ofNat 125

/-- A parsed JSON value, the result shape of `json.loads`. -/
inductive JVal where
  | jnull : JVal
  | jbool : Bool → JVal
  | jnum : Int → JVal
  | jstr : String → JVal
  | jarr : List JVal → JVal
  | jobj : List (String × JVal) → JVal

/-- JSON whitespace (the characters `json.loads` skips between tokens). -/
def jsonWs (c : Char) : Bool := c == ' ' || c == '\t' || c == '\n' || c == '\r'

/-- Skip JSON whitespace. -/
def skipWs (cs : List Char) : List Char := cs.dropWhile jsonWs

/-- A JSON string escape (`\"`, `\\`, `\/`, `\n`, `\t`, `\r`, `\b`, `\f`);
other escapes (including `\uXXXX`, unused by this development's inputs) are
rejected like any invalid escape. -/
def escChar (e : Char) : Option Char :=
  if e = 'n' then some '\n'
  else if e = 't' then some '\t'
  else if e = 'r' then some '\r'
  else if e = 'b' then some (Char.ofNat 8)
  else if e = 'f' then some (Char.ofNat 12)
  else if e = '"' || e = '\\' || e = '/' then some e
  else none

/-- The body of a JSON string after its opening quote: the decoded
characters and the input after the closing quote.  A raw control character
(code point below 32) is rejected, as `json.loads` rejects it. -/
def parseStrBody : List Char → Option (List Char × List Char)
  | [] => none
  | '"' :: rest => some ([], rest)
  | '\\' :: rest =>
    match rest with
    | [] => none
    | e :: r =>
      match escChar e with
      | none => none
      | some c => (parseStrBody r).map fun p => (c :: p.1, p.2)
  | c :: rest =>
    if c.toNat < 32 then none
    else (parseStrBody rest).map fun p => (c :: p.1, p.2)

/-- The value of a digit run. -/
def digitsVal (ds : List Char) : Nat := ds.foldl (fun a c => a * 10 + (c.toNat - 48)) 0

/-- A JSON number, restricted to the integer subset this development's
inputs use: an optional minus sign and a digit run; a fraction or exponent
is out of the modelled subset. -/
def parseNum (cs : List Char) : Option (Int × List Char) :=
  let p : Bool × List Char := match cs with
    | '-' :: r => (true, r)
    | _ => (false, cs)
  let ds := p.2.takeWhile Char.isDigit
  let rest := p.2.dropWhile Char.isDigit
  if ds.isEmpty then none
  else
    match rest with
    | '.' :: _ => none
    | 'e' :: _ => none
    | 'E' :: _ => none
    | _ => some (if p.1 then -(digitsVal ds : Int) else (digitsVal ds : Int), rest)

mutual
/-- Strict JSON value parsing with a fuel bound on nesting: the model of
`json.loads` scanning one value and returning the unconsumed input. -/
def parseVal : Nat → List Char → Option (JVal × List Char)
  | 0, _ => none
  | Nat.succ fuel, cs =>
    match skipWs cs with
    | [] => none
    | c :: rest =>
      if c == '"' then (parseStrBody rest).map fun p => (JVal.jstr (String.mk p.1), p.2)
      else if c == '[' then
        match skipWs rest with
        | ']' :: r2 => some (.jarr [], r2)
        | _ => (parseArrItems fuel rest).map fun p => (JVal.jarr p.1, p.2)
      else if c == obrace then
        match skipWs rest with
        | d :: r2 =>
          if d == cbrace then some (.jobj [], r2)
          else (parseObjPairs fuel rest).map fun p => (JVal.jobj p.1, p.2)
        | [] => none
      else if c == 't' then
        match rest with
        | 'r' :: 'u' :: 'e' :: r => some (.jbool true, r)
        | _ => none
      else if c == 'f' then
        match rest with
        | 'a' :: 'l' :: 's' :: 'e' :: r => some (.jbool false, r)
        | _ => none
      else if c == 'n' then
        match rest with
        | 'u' :: 'l' :: 'l' :: r => some (.jnull, r)
        | _ => none
      else if c == '-' || c.isDigit then
        (parseNum (c :: rest)).map fun p => (JVal.jnum p.1, p.2)
      else none

/-- The comma-separated items of a nonempty JSON array, up to and including
the closing bracket.  A trailing comma fails: after a comma another value is
required. -/
def parseArrItems : Nat → List Char → Option (List JVal × List Char)
  | 0, _ => none
  | Nat.succ fuel, cs =>
    match parseVal fuel cs with
    | none => none
    | some (v, r1) =>
      match skipWs r1 with
      | ',' :: r2 => (parseArrItems fuel r2).map fun p => (v :: p.1, p.2)
      | ']' :: r2 => some ([v], r2)
      | _ => none

/-- The comma-separated pairs of a nonempty JSON object, up to and including
the closing brace.  A trailing comma fails: after a comma another quoted key
is required. -/
def parseObjPairs : Nat → List Char → Option (List (String × JVal) × List Char)
  | 0, _ => none
  | Nat.succ fuel, cs =>
    match skipWs cs with
    | '"' :: r1 =>
      match parseStrBody r1 with
      | none => none
      | some (key, r2) =>
        match skipWs r2 with
        | ':' :: r3 =>
          match parseVal fuel r3 with
          | none => none
          | some (v, r4) =>
            match skipWs r4 with
            | ',' :: r5 => (parseObjPairs fuel r5).map fun p =>
                ((String.mk key, v) :: p.1, p.2)
            | d :: r5 => if d == cbrace then some ([(String.mk key, v)], r5) else none
            | [] => none
        | _ => none
    | _ => none
end

/-- `json.loads(s)` (restricted as documented on `parseNum` and `escChar`):
one value, with only whitespace allowed after it. -/
def jsonLoads (s : String) : Option JVal :=
  let cs := s.toList
  match parseVal (2 * cs.length + 2) cs with
  | some (v, rest) => if (skipWs rest).isEmpty then some v else none
  | none => none

/-- One line under `re.sub(r'//.*?$', '', content, flags=re.MULTILINE)`
(repro-check.py:153): everything from the first `//` to the end of the line
is removed — with no regard to JSON string boundaries. -/
def stripCommentLine : List Char → List Char
  | [] => []
  | c :: rest =>
    if c = '/' ∧ rest.head? = some '/' then []
    else c :: stripCommentLine rest

/-- Split a character sequence at each newline (the line structure the
MULTILINE substitution works on); splitting an empty text gives one empty
line, as `str.split` does. -/
def splitLines : List Char → List (List Char)
  | [] => [[]]
  | '\n' :: rest => [] :: splitLines rest
  | c :: rest =>
    match splitLines rest with
    | l :: ls => (c :: l) :: ls
    | [] => [[c]]

/-- Rejoin lines with newlines. -/
def joinLines : List (List Char) → List Char
  | [] => []
  | [l] => l
  | l :: l2 :: ls => l ++ '\n' :: joinLines (l2 :: ls)

/-- The whole-text comment strip: the substitution applied per line (`$`
matches before each newline under MULTILINE, and `.` does not cross one). -/
def stripComments (s : String) : String :=
  String.mk (joinLines ((splitLines s.toList).map stripCommentLine))

/-- A character of the regex class `\s`. -/
def regexWs (c : Char) : Bool :=
  c == ' ' || c == '\t' || c == '\n' || c == '\r' ||
  c == Char.ofNat 11 || c == Char.ofNat 12

/-- Whether the input continues with `\s*` and then a closing brace or
bracket — the lookahead of `re.sub(r',(\s*[}\]])', r'\1', content)`. -/
def closesAfterWs (cs : List Char) : Bool :=
  match cs.dropWhile regexWs with
  | c :: _ => c == cbrace || c == ']'
  | [] => false

/-- `re.sub(r',(\s*[}\]])', r'\1', content)` (repro-check.py:155): every
comma directly followed by optional whitespace and a closing brace/bracket
is deleted, the whitespace and bracket kept. -/
def stripTrailingCommasL : List Char → List Char
  | [] => []
  | ',' :: rest =>
    if closesAfterWs rest then stripTrailingCommasL rest
    else ',' :: stripTrailingCommasL rest
  | c :: rest => c :: stripTrailingCommasL rest

/-- The relaxed-dialect descriptor parse of `DevContainerCheck.subchecks`
(repro-check.py:152-157): strip `//` line comments, strip trailing commas,
then strict parsing. -/
def relaxedLoads (s : String) : Option JVal :=
  jsonLoads (String.mk (stripTrailingCommasL (stripComments s).toList))

/-- C9: the input `// c\n{"a":1,}` parses under the relaxed dialect to the
same structure that `{"a":1}` parses to strictly, namely the one-entry
object mapping "a" to 1. -/
theorem c9_relaxed_dialect_example :
    relaxedLoads "// c\n\x7b\"a\":1,\x7d" = jsonLoads "\x7b\"a\":1\x7d" ∧
    jsonLoads "\x7b\"a\":1\x7d" = some (JVal.jobj [("a", JVal.jnum 1)]) := by
  exact ⟨rfl, rfl⟩

/-- A strictly valid JSON descriptor whose string value contains `//`: a
devcontainer configuration whose post-create command fetches a URL. -/
def descriptorWithUrl : String :=
  "\x7b\"postCreateCommand\": \"curl https://example.org/install.sh\"\x7d"

/-- C10: the comment strip deletes from any `//` to the end of the line even
when the `//` lies inside a JSON string literal (first conjunct: for any
line, everything from the first `//` on is dropped, string context
notwithstanding); consequently the strictly valid descriptor
`descriptorWithUrl` — whose post-create command contains a URL — parses
strictly to the expected object but fails to parse under the
container-environment check's relaxed dialect. -/
theorem c10_comment_strip_ignores_strings :
    (∀ (pre suf : List Char), '/' ∉ pre →
      stripCommentLine (pre ++ '/' :: '/' :: suf) = pre) ∧
    jsonLoads descriptorWithUrl = some (JVal.jobj
      [("postCreateCommand", JVal.jstr "curl https://example.org/install.sh")]) ∧
    relaxedLoads descriptorWithUrl = none := by
  refine ⟨?_, rfl, rfl⟩
  intro pre
  induction pre with
  | nil => intro suf _; rfl
  | cons c pre ih =>
    intro suf h
    have hc : ¬(c = '/' ∧ (pre ++ '/' :: '/' :: suf).head? = some '/') :=
      fun hand => h (hand.1 ▸ List.mem_cons_self c pre)
    show (if c = '/' ∧ (pre ++ '/' :: '/' :: suf).head? = some '/' then []
      else c :: stripCommentLine (pre ++ '/' :: '/' :: suf)) = c :: pre
    rw [if_neg hc, ih suf fun hm => h (List.mem_cons_of_mem c hm)]

/-- Witness for C10 at a concrete line: inside the string literal
`"a//b"`, the strip truncates after the opening quote and the `a`. -/
theorem c10_comment_strip_ignores_strings_witness :
    stripCommentLine ['"', 'a', '/', '/', 'b', '"'] = ['"', 'a'] :=
  c10_comment_strip_ignores_strings.1 ['"', 'a'] ['b', '"'] (by decide)

/-! ## The audit engine (`repro-check.py`) -/

/-- `Result` (repro-check.py:16-18). -/
inductive Outcome where
  | success
  | fail
deriving DecidableEq

/-- `SubCheckResult` (repro-check.py:22): name, optional hint (title and
remediation text — `None` is the distinct no-hint sentinel), message,
outcome.  For a non-string message value the source stores the raw parsed
object and renders it later; the model renders it at once (`pyOrNotSet`). -/
structure SubCheck where
  name : String
  hint : Option (String × String)
  message : String
  outcome : Outcome

/-- `Check.__call__` (repro-check.py:44-53): materialize all subchecks and
pair them with `all(result == Result.SUCCESS ...)`. -/
def checkCall (subs : List SubCheck) : List SubCheck × Bool :=
  (subs, subs.all fun r => r.outcome == Outcome.success)

/-- The exceptions `DevContainerCheck.subchecks` can raise, none of which
any caller catches: a failed `open`/`read`, a `json.JSONDecodeError` from
`json.loads`, an `AttributeError` from calling `.get` on a non-dict. -/
inductive AuditRaise where
  | ioError : String → AuditRaise
  | jsonDecodeError : AuditRaise
  | attributeError : AuditRaise
deriving DecidableEq

/-- The external state `DevContainerCheck.subchecks` reads: the discovered
devcontainer configuration paths (`Measure.DEVCONTAINER_CONF_PATHS`) and the
file contents behind them (`open(config_path).read()`, which can fail). -/
structure AuditEnv where
  devconfigs : List String
  readFile : String → Except String String

/-- `config.get(key)` on a parsed JSON object: first-match lookup, `None`
when absent. -/
def jget : List (String × JVal) → String → Option JVal
  | [], _ => none
  | kv :: rest, key => if kv.1 = key then some kv.2 else jget rest key

/-- Python truthiness of a parsed JSON value. -/
def jtruthy : JVal → Bool
  | .jnull => false
  | .jbool b => b
  | .jnum n => n != 0
  | .jstr s => !s.isEmpty
  | .jarr xs => !xs.isEmpty
  | .jobj kvs => !kvs.isEmpty

/-- Truthiness of `config.get(...)`: `None` is falsy. -/
def pytruthyO : Option JVal → Bool
  | none => false
  | some j => jtruthy j

/-- `str()` of a parsed JSON scalar as the console renders it (container
values abbreviated; no subcheck of this development depends on their
rendering). -/
def pyStr : JVal → String
  | .jstr s => s
  | .jbool true => "True"
  | .jbool false => "False"
  | .jnull => "None"
  | .jnum n => toString n
  | .jarr _ => "<list>"
  | .jobj _ => "<dict>"

/-- `x or "<not set>"`: the value's rendering when truthy, else the
placeholder. -/
def pyOrNotSet (o : Option JVal) : String :=
  match o with
  | some j => if jtruthy j then pyStr j else "<not set>"
  | none => "<not set>"

/-- `CONFIGURE_DEV_CONTAINER_HINT` (repro-check.py:125-130). -/
def configureDevContainerHint : Option (String × String) :=
  some ("Configure and use a dev container",
    "For VSCode follow: [underline]https://code.visualstudio.com/docs/devcontainers/create-dev-container[/underline]\n"
    ++ "For PyCharm: [underline]https://www.jetbrains.com/help/pycharm/connect-to-devcontainer.html[/underline]\n"
    ++ "General information: [underline]https://containers.dev/[/underline]")

/-- The subchecks yielded after a successful parse (repro-check.py:159-174):
the base-image/Dockerfile subcheck (a FAIL when neither is truthy, else a
SUCCESS per truthy one), then always the post-create subcheck, a SUCCESS. -/
def devTail (kvs : List (String × JVal)) (image dockerfile : Option JVal) :
    List SubCheck :=
  (if !(pytruthyO image) && !(pytruthyO dockerfile) then
    [⟨"Base image or Dockerfile", some ("TODO", "<TODO: hint>"), "", Outcome.fail⟩]
  else
    (if pytruthyO image then
      [⟨"Base image", none, pyOrNotSet image, Outcome.success⟩] else []) ++
    (if pytruthyO dockerfile then
      [⟨"Dockerfile", none, pyOrNotSet dockerfile, Outcome.success⟩] else [])) ++
  [⟨"Post-create command", none, pyOrNotSet (jget kvs "postCreateCommand"),
    Outcome.success⟩]

/-- `DevContainerCheck.subchecks` (repro-check.py:137-174): an empty
configuration list yields the single find-configuration FAIL; otherwise the
first configuration file is read, parsed under the relaxed dialect, and the
remaining subchecks are generated.  Every raising operation is returned as
`.error`: nothing in the source catches any of them.  `build.get("dockerfile")
if (build := config.get("build")) else None` raises `AttributeError` when
`build` is truthy but not a dict, as does `config.get` when the parse result
is not a dict. -/
def devContainerSubchecksList (devconfigs : List String)
    (readFile : String → Except String String) :
    Except AuditRaise (List SubCheck) :=
  match devconfigs with
  | [] => .ok [⟨"Find Dev Container Configuration", configureDevContainerHint,
      "", Outcome.fail⟩]
  | configPath :: _ =>
    match readFile configPath with
    | .error e => .error (.ioError e)
    | .ok content =>
      match relaxedLoads content with
      | none => .error .jsonDecodeError
      | some config =>
        match config with
        | .jobj kvs =>
          let image := jget kvs "image"
          match jget kvs "build" with
          | some b =>
            if jtruthy b = true then
              match b with
              | .jobj bkvs => .ok (devTail kvs image (jget bkvs "dockerfile"))
              | _ => .error .attributeError
            else .ok (devTail kvs image none)
          | none => .ok (devTail kvs image none)
        | _ => .error .attributeError

/-- `DevContainerCheck.subchecks` against the environment record. -/
def devContainerSubchecks (env : AuditEnv) : Except AuditRaise (List SubCheck) :=
  devContainerSubchecksList env.devconfigs env.readFile

/-- `DevContainerCheck()()`: `Check.__call__` over the generated subchecks,
or the exception the generator raises while `list(...)` drains it. -/
def devContainerCall (env : AuditEnv) : Except AuditRaise (List SubCheck × Bool) :=
  match devContainerSubchecks env with
  | .error e => .error e
  | .ok l => .ok (checkCall l)

/-- The tail subcheck of `devTail` is always the post-create one, a
SUCCESS. -/
theorem devTail_last (kvs : List (String × JVal)) (image dockerfile : Option JVal) :
    ((devTail kvs image dockerfile).getLast?).map SubCheck.name =
      some "Post-create command" ∧
    ((devTail kvs image dockerfile).getLast?).map SubCheck.outcome =
      some Outcome.success := by
  unfold devTail
  rw [List.getLast?_concat]
  exact ⟨rfl, rfl⟩

/-- C8 counterexample: evaluating the container-environment Check can raise.
With one discovered configuration file whose content is the malformed
descriptor `{`, the relaxed parse fails and `json.loads` raises
`JSONDecodeError`, which `Check.__call__` does not catch — the evaluation
does not return subcheck data. -/
theorem c8_check_raises_counterexample :
    devContainerCall ⟨["/p/devcontainer.json"], fun _ => Except.ok "\x7b"⟩ =
      Except.error AuditRaise.jsonDecodeError := rfl

/-- C8 amended: the Check evaluation materializes every generated subcheck —
`Check.__call__` returns the full list, with each failure as data, and its
overall flag is true exactly when every subcheck succeeded; whenever the
descriptor parse path completes, the final post-create subcheck is produced
even after earlier failing subchecks (shown concretely by the `{}`
descriptor: the base-image FAIL is followed by the evaluated post-create
SUCCESS).  However, the claim's "never raises" is false — a malformed or
unreadable descriptor makes `DevContainerCheck.subchecks` raise, nothing
catches it (see the counterexample). -/
theorem c8_subchecks_collected_as_data :
    (∀ subs : List SubCheck, (checkCall subs).1 = subs ∧
      ((checkCall subs).2 = true ↔ ∀ s ∈ subs, s.outcome = Outcome.success)) ∧
    (∀ (env : AuditEnv) (l : List SubCheck), env.devconfigs ≠ [] →
      devContainerSubchecks env = Except.ok l →
      (l.getLast?).map SubCheck.name = some "Post-create command" ∧
      (l.getLast?).map SubCheck.outcome = some Outcome.success) ∧
    devContainerCall ⟨["/p/devcontainer.json"], fun _ => Except.ok "\x7b\x7d"⟩ =
      Except.ok
        ([⟨"Base image or Dockerfile", some ("TODO", "<TODO: hint>"), "",
            Outcome.fail⟩,
          ⟨"Post-create command", none, "<not set>", Outcome.success⟩], false) := by
  refine ⟨fun subs => ⟨rfl, ?_⟩, fun env l hne hok => ?_, rfl⟩
  · simp [checkCall, List.all_eq_true]
  · obtain ⟨p, ps, hd⟩ : ∃ p ps, env.devconfigs = p :: ps := by
      cases hcc : env.devconfigs with
      | nil => exact absurd hcc hne
      | cons a b => exact ⟨a, b, rfl⟩
    unfold devContainerSubchecks at hok
    rw [hd, devContainerSubchecksList] at hok
    split at hok
    · cases hok
    · split at hok
      · cases hok
      · split at hok
        · split at hok
          · split at hok
            · split at hok
              · simp only [Except.ok.injEq] at hok
                subst hok
                exact devTail_last _ _ _
              · cases hok
            · simp only [Except.ok.injEq] at hok
              subst hok
              exact devTail_last _ _ _
          · simp only [Except.ok.injEq] at hok
            subst hok
            exact devTail_last _ _ _
        · cases hok

/-- Witness for the amended C8: on the `{}` descriptor the generated list's
last subcheck is the evaluated post-create SUCCESS, although the subcheck
before it failed. -/
theorem c8_subchecks_collected_as_data_witness :
    (([⟨"Base image or Dockerfile", some ("TODO", "<TODO: hint>"), "",
        Outcome.fail⟩,
       ⟨"Post-create command", none, "<not set>",
        Outcome.success⟩] : List SubCheck).getLast?).map SubCheck.name =
      some "Post-create command" ∧
    (([⟨"Base image or Dockerfile", some ("TODO", "<TODO: hint>"), "",
        Outcome.fail⟩,
       ⟨"Post-create command", none, "<not set>",
        Outcome.success⟩] : List SubCheck).getLast?).map SubCheck.outcome =
      some Outcome.success :=
  c8_subchecks_collected_as_data.2.1
    ⟨["/p/devcontainer.json"], fun _ => Except.ok "\x7b\x7d"⟩
    [⟨"Base image or Dockerfile", some ("TODO", "<TODO: hint>"), "",
      Outcome.fail⟩,
     ⟨"Post-create command", none, "<not set>", Outcome.success⟩]
    (by simp) rfl
